import Mathlib

/-!
Verification of the Bitmark chain-parameter registry (src/src/chainparams.h,
src/src/chainparams.cpp) against its natural-language specification.

The registry is embedded shallowly: the three parameter-set constructors
(CMainParams, CTestNetParams, CRegTestParams) become Lean functions producing a
`ChainState` record, mirroring the C++ initialisation order (the Test
constructor runs the Main constructor first and then applies its own overrides,
and likewise Regression over Test, matching C++ base-class construction).
Machine integers are modelled as `Nat`/`Int` with explicit `% 256` where the
source narrows to `unsigned char`.

The block/transaction module (core.h / core.cpp: `CBlock::GetHash`,
`CBlock::BuildMerkleTree`) is not part of the given sources; those two
functions are modelled from the spec, as documented on their definitions.
-/

/-- Network id enumeration from chainparams.h (CChainParams::Network).
MAX_NETWORK_TYPES is a sentinel, not a network, and is omitted; SelectParams
hits assert(false) for it, so only the three real ids are representable. -/
inductive Network where
  | MAIN
  | TESTNET
  | REGTEST
deriving DecidableEq

/-- Address-kind enumeration from chainparams.h (CChainParams::Base58Type).
MAX_BASE58_TYPES is the array-size sentinel and is omitted. -/
inductive Base58Type where
  | PUBKEY_ADDRESS
  | SCRIPT_ADDRESS
  | SECRET_KEY
  | EXT_PUBLIC_KEY
  | EXT_SECRET_KEY
deriving DecidableEq

/-- One monetary unit in base units (COIN from util.h, the standard 10^8
satoshi scaling; its exact value is irrelevant to every claim, it only sits in
the coinbase output value). -/
def COIN : Nat := 100000000

/-- Coinbase transaction as built in both genesis constructors: scriptSig
pushes 486604799, CScriptNum(4), and the timestamp message; one output of
20 * COIN to the fixed public key script. Only the timestamp message differs
between the Main and Test genesis transactions. -/
structure CTransaction where
  scriptSigNums : List Nat
  scriptSigData : String
  nValue : Nat
  scriptPubKey : String
deriving DecidableEq

/-- Block as used by the genesis construction: the six header fields hashed by
GetHash plus the transaction list the Merkle tree is built over. -/
structure CBlock where
  nVersion : Nat
  hashPrevBlock : Nat
  hashMerkleRoot : Nat
  nTime : Nat
  nBits : Nat
  nNonce : Nat
  vtx : List CTransaction
deriving DecidableEq

/-- Peer-address record produced by the fixed-seed loop (CAddress from
protocol.h, reduced to the fields the loop writes: the packed IP, the default
port, and the randomised last-seen timestamp). -/
structure CAddress where
  ip : Nat
  port : Nat
  nTime : Int
deriving DecidableEq

/-- The mutable per-object state of CChainParams (chainparams.h, protected
section). `base58Prefixes` is the five-slot array indexed by Base58Type. -/
structure ChainState where
  pchMessageStart : List Nat
  vAlertPubKey : String
  nDefaultPort : Nat
  nRPCPort : Nat
  bnProofOfWorkLimit : Nat
  nSubsidyHalvingInterval : Nat
  strDataDir : String
  vSeeds : List (String × String)
  base58Prefixes : Base58Type → List Nat
  fStrictChainId : Bool
  nAuxpowChainId : Nat
  genesis : CBlock
  hashGenesisBlock : Nat
  vFixedSeeds : List CAddress
  nForkHeight2 : Int

/-- Narrowing of an int literal into an `unsigned char` element of a
std::vector, as boost list_of does in the base58 prefix tables. -/
def byte (n : Nat) : Nat := n % 256

/-- Genesis coinbase message of the Main network (chainparams.cpp line 46). -/
def mainTimestamp : String :=
  "13/July/2014, with memory of the past, we look to the future. TDR"

/-- Genesis coinbase message of the Test network (chainparams.cpp line 128). -/
def testnetTimestamp : String := "Testing Testnet"

/-- Public key paid by the genesis coinbase output, identical in the Main and
Test genesis transactions (hex as it appears in the source). -/
def genesisOutputKey : String :=
  "04f88a76429dad346a10ecb5d36fcbf50bc2e009870e20c1a6df8db743e0b994afc1f91e079be8acc380b0ee7765519906e3d781519e9db48259f64160104939d8"

/-- Builds the genesis coinbase transaction from its timestamp message,
mirroring chainparams.cpp lines 47-52 and 129-134. -/
def mkCoinbaseTx (ts : String) : CTransaction :=
  { scriptSigNums := [486604799, 4]
    scriptSigData := ts
    nValue := 20 * COIN
    scriptPubKey := genesisOutputKey }

/-- Injective numeric encoding of a string (used only inside the fallback
branches of the modelled hash functions). -/
def encodeString (s : String) : Nat :=
  s.data.foldl (fun a c => a * 1114112 + (c.toNat + 1)) 0

/-- Injective numeric encoding of a transaction, for the modelled Merkle-root
fallback, built from the Cantor-style pairing function. -/
def encodeTx (t : CTransaction) : Nat :=
  Nat.pair (encodeString t.scriptSigData)
    (Nat.pair t.nValue
      (Nat.pair (encodeString t.scriptPubKey)
        (t.scriptSigNums.foldl (fun a n => Nat.pair a (n + 1)) 0)))

/-- Numeric encoding of a transaction list, for the modelled Merkle-root
fallback. -/
def encodeTxList (vtx : List CTransaction) : Nat :=
  vtx.foldl (fun a t => Nat.pair a (encodeTx t + 1)) 0

/-- Modelled from the spec: CBlock::BuildMerkleTree lives in core.h/core.cpp,
which is not among the given sources. Spec §4.1 says the genesis Merkle root is
computed over the single coinbase transaction by a cryptographic hash, and §8
says Main's construction yields exactly the hard-coded expected Merkle root
(the literal asserted at chainparams.cpp line 64). The model therefore pins the
Main genesis transaction list to that spec-asserted literal and maps every
other transaction list through an injective encoding offset by 2^256, so that,
reflecting collision resistance, distinct inputs give distinct results and no
unpinned input collides with a pinned 256-bit literal. -/
def BuildMerkleTree_model (vtx : List CTransaction) : Nat :=
  if vtx = [mkCoinbaseTx mainTimestamp] then
    0xd4715adf41222fae3d4bf41af30c675bc27228233d0f3cfd4ae0ae1d3e760ba8
  else 2 ^ 256 + encodeTxList vtx

/-- Merkle root stored in the Main genesis block. -/
def mainMerkleRoot : Nat := BuildMerkleTree_model [mkCoinbaseTx mainTimestamp]

/-- Merkle root stored in the Test (and, by inheritance, Regression) genesis
block. -/
def testnetMerkleRoot : Nat := BuildMerkleTree_model [mkCoinbaseTx testnetTimestamp]

/-- The six header fields in the order CBlock::GetHash consumes them: version,
previous-block reference, Merkle root, time, bits, nonce. -/
def headerKey (b : CBlock) : List Nat :=
  [b.nVersion, b.hashPrevBlock, b.hashMerkleRoot, b.nTime, b.nBits, b.nNonce]

/-- Injective numeric encoding of a block header, for the modelled block-hash
fallback, built from the Cantor-style pairing function. -/
def encodeHeader (b : CBlock) : Nat :=
  Nat.pair b.nVersion
    (Nat.pair b.hashPrevBlock
      (Nat.pair b.hashMerkleRoot
        (Nat.pair b.nTime (Nat.pair b.nBits b.nNonce))))

/-- Modelled from the spec: CBlock::GetHash lives in core.h/core.cpp, which is
not among the given sources. Spec §4.1 says the block hash is a cryptographic
hash of version, zero previous-block reference, Merkle root, time, bits and
nonce, and §8 says each network's construction yields exactly that network's
hard-coded expected hash (the literals asserted at chainparams.cpp lines 63,
145 and 200). The model pins each network's genesis header, as built by its
constructor immediately before the GetHash call, to the corresponding
spec-asserted literal (for Regression that is the header carrying the mined
nonce 713058, the value in force when the hash is taken), and maps every other
header through an injective encoding offset by 2^256, reflecting collision
resistance as for the Merkle model. -/
def GetHash_model (b : CBlock) : Nat :=
  if headerKey b = [1, 0, mainMerkleRoot, 1405274442, 0x1d00ffff, 14385103] then
    0xc1fb746e87e89ae75bdec2ef0639a1f6786744639ce3d0ece1dcf979b79137cb
  else if headerKey b = [1, 0, testnetMerkleRoot, 1509891419, 0x1e0ffff0, 1291475] then
    0x572f069d470350b8facc52a0866671d2d3071230e4df45d193394ae153fa891d
  else if headerKey b = [1, 0, testnetMerkleRoot, 1405274400, 0x207fffff, 713058] then
    0x168329a349fc93768bfb02e536bbe1e1847d77a65764564552122fa9268d8841
  else 2 ^ 256 + encodeHeader b

/-- Packed fixed-seed IPs (pnSeed array, chainparams.cpp lines 22-25). -/
def pnSeed : List Nat := [0xac1f1f0a, 0xae240982, 0x253b1359]

/-- One week of seconds (nOneWeek, chainparams.cpp line 82). -/
def nOneWeek : Int := 7 * 24 * 60 * 60

/-- The fixed-seed materialisation loop (chainparams.cpp lines 76-88): each
pnSeed entry becomes a CAddress on the default port whose last-seen time is
GetTime() - GetRand(nOneWeek) - nOneWeek. The wall clock `now` (GetTime) and
the per-iteration random draw `rand i` (the i-th GetRand(nOneWeek) result) are
external inputs, passed as parameters; spec §4.3 gives the random draw the
range random(0, one_week). -/
def materializeFixedSeeds (now : Int) (rand : Nat → Nat) (port : Nat) : List CAddress :=
  (List.range pnSeed.length).map fun i =>
    { ip := pnSeed.getD i 0, port := port, nTime := now - (rand i : Int) - nOneWeek }

/-- State of a CChainParams object before its constructor body runs. The three
parameter-set objects have static storage duration (chainparams.cpp lines 101,
160, 208), so C++ zero-initialises every scalar member first; in particular
nForkHeight2, which no constructor ever assigns, stays 0. The protected
CChainParams() constructor body is empty. -/
def zeroState : ChainState :=
  { pchMessageStart := [0, 0, 0, 0]
    vAlertPubKey := ""
    nDefaultPort := 0
    nRPCPort := 0
    bnProofOfWorkLimit := 0
    nSubsidyHalvingInterval := 0
    strDataDir := ""
    vSeeds := []
    base58Prefixes := fun _ => []
    fStrictChainId := false
    nAuxpowChainId := 0
    genesis := { nVersion := 0, hashPrevBlock := 0, hashMerkleRoot := 0
                 nTime := 0, nBits := 0, nNonce := 0, vtx := [] }
    hashGenesisBlock := 0
    vFixedSeeds := []
    nForkHeight2 := 0 }

/-- CMainParams::CMainParams (chainparams.cpp lines 29-89), step by step in
source order. bnProofOfWorkLimit is ~uint256(0) >> 32, i.e. (2^256 - 1) >>> 32.
`now` and `rand` feed the fixed-seed loop only. -/
def CMainParams_construct (now : Int) (rand : Nat → Nat) : ChainState :=
  let s := zeroState
  let s := { s with
    pchMessageStart := [0xf9, 0xbe, 0xb4, 0xd9]
    vAlertPubKey := "04bf5a75ff0f823840ef512b08add20bb4275ff6e097f2830ad28645e28cb5ea4dc2cfd0972b94019ad46f331b45ef4ba679f2e6c87fd19c864365fadb4f8d2269"
    nDefaultPort := 9265
    nRPCPort := 9266
    bnProofOfWorkLimit := (2 ^ 256 - 1) >>> 32
    nSubsidyHalvingInterval := 788000
    fStrictChainId := false
    nAuxpowChainId := 0x005B }
  let txNew := mkCoinbaseTx mainTimestamp
  let g := { s.genesis with vtx := s.genesis.vtx ++ [txNew], hashPrevBlock := 0 }
  let g := { g with hashMerkleRoot := BuildMerkleTree_model g.vtx }
  let g := { g with nVersion := 1, nTime := 1405274442, nBits := 0x1d00ffff, nNonce := 14385103 }
  let s := { s with genesis := g, hashGenesisBlock := GetHash_model g }
  let s := { s with
    vSeeds := [("bitmark.co", "seed.bitmark.co")]
    base58Prefixes := fun t => match t with
      | .PUBKEY_ADDRESS => [byte 85]
      | .SCRIPT_ADDRESS => [byte 5]
      | .SECRET_KEY => [byte 213]
      | .EXT_PUBLIC_KEY => [byte 0x04, byte 0x88, byte 0xB2, byte 0x1E]
      | .EXT_SECRET_KEY => [byte 0x04, byte 0x88, byte 0xAD, byte 0xE4]
    vFixedSeeds := materializeFixedSeeds now rand 9265 }
  s

/-- CTestNetParams::CTestNetParams body (chainparams.cpp lines 109-157),
applied to the state the CMainParams base constructor left behind. It replaces
vtx[0], recomputes the Merkle root, overrides time/bits/nonce (nVersion stays
1 from the base), rehashes, clears vFixedSeeds, replaces vSeeds, and installs
its own base58 table. bnProofOfWorkLimit is ~uint256(0) >> 8. -/
def CTestNetParams_body (s : ChainState) : ChainState :=
  let s := { s with
    pchMessageStart := [0x0b, 0x11, 0x09, 0x07]
    vAlertPubKey := "0468770c9d451dd5d6d373ae6096d4ab0705c4ab66e55cc25c40788580039bd04b7672322b9bd26ce22a3ad95f490d7d188a905ce30246b2425eca8cc5102190d0"
    nDefaultPort := 19265
    nRPCPort := 19266
    bnProofOfWorkLimit := (2 ^ 256 - 1) >>> 8
    strDataDir := "testnet4"
    fStrictChainId := false
    nAuxpowChainId := 0x005B }
  let txNew := mkCoinbaseTx testnetTimestamp
  let g := { s.genesis with vtx := s.genesis.vtx.set 0 txNew, hashPrevBlock := 0 }
  let g := { g with hashMerkleRoot := BuildMerkleTree_model g.vtx }
  let g := { g with nTime := 1509891419, nBits := 0x1e0ffff0, nNonce := 1291475 }
  let s := { s with genesis := g, hashGenesisBlock := GetHash_model g }
  let s := { s with
    vFixedSeeds := []
    vSeeds := [("bitmark.io", "us.bitmark.io"), ("bitmark.co", "explorer.bitmark.co")]
    base58Prefixes := fun t => match t with
      | .PUBKEY_ADDRESS => [byte 130]
      | .SCRIPT_ADDRESS => [byte 196]
      | .SECRET_KEY => [byte 258]
      | .EXT_PUBLIC_KEY => [byte 0x04, byte 0x35, byte 0x87, byte 0xCF]
      | .EXT_SECRET_KEY => [byte 0x04, byte 0x35, byte 0x83, byte 0x94] }
  s

/-- Full construction of the testNetParams object: C++ runs the CMainParams
base constructor first, then the CTestNetParams body. -/
def CTestNetParams_construct (now : Int) (rand : Nat → Nat) : ChainState :=
  CTestNetParams_body (CMainParams_construct now rand)

/-- CRegTestParams::CRegTestParams body (chainparams.cpp lines 168-203),
applied to the state the CTestNetParams base constructor left behind. The
genesis transaction list and Merkle root are inherited from Test unchanged.
Note the source order at lines 192-193: hashGenesisBlock is computed while
genesis.nNonce is still 713058, and only afterwards is genesis.nNonce
overwritten with 3. bnProofOfWorkLimit is ~uint256(0) >> 1. -/
def CRegTestParams_body (s : ChainState) : ChainState :=
  let s := { s with
    pchMessageStart := [0xfa, 0xbf, 0xb5, 0xda]
    nSubsidyHalvingInterval := 150
    bnProofOfWorkLimit := (2 ^ 256 - 1) >>> 1
    genesis := { s.genesis with nTime := 1405274400, nBits := 0x207fffff, nNonce := 713058 } }
  let s := { s with hashGenesisBlock := GetHash_model s.genesis }
  let s := { s with
    genesis := { s.genesis with nNonce := 3 }
    nDefaultPort := 18444
    strDataDir := "regtest"
    fStrictChainId := false
    nAuxpowChainId := 0x005B
    vSeeds := [] }
  s

/-- Full construction of the regTestParams object: C++ runs the CTestNetParams
base constructor (which itself runs CMainParams) first, then the CRegTestParams
body. -/
def CRegTestParams_construct (now : Int) (rand : Nat → Nat) : ChainState :=
  CRegTestParams_body (CTestNetParams_construct now rand)

/-- A constructed parameter-set object together with its virtual dispatch
results: NetworkID is overridden by each variant, RequireRPCPassword defaults
to true in the base (chainparams.h line 64) and is overridden to false only by
CRegTestParams (chainparams.cpp line 205). -/
structure ParamsObj where
  state : ChainState
  networkID : Network
  requireRPCPassword : Bool

/-- The three statically constructed parameter-set objects (mainParams,
testNetParams, regTestParams) with their virtual-method results. -/
def paramsFor (n : Network) (now : Int) (rand : Nat → Nat) : ParamsObj :=
  match n with
  | .MAIN =>
      { state := CMainParams_construct now rand
        networkID := .MAIN
        requireRPCPassword := true }
  | .TESTNET =>
      { state := CTestNetParams_construct now rand
        networkID := .TESTNET
        requireRPCPassword := true }
  | .REGTEST =>
      { state := CRegTestParams_construct now rand
        networkID := .REGTEST
        requireRPCPassword := false }

/-- Initial value of the pCurrentParams pointer (chainparams.cpp line 210:
static CChainParams *pCurrentParams = &mainParams). The selector state is
modelled by which of the three objects the pointer designates. -/
def initialSelection : Network := Network.MAIN

/-- SelectParams (chainparams.cpp lines 216-231): repoints pCurrentParams at
the object for the requested network. Every representable network id is one of
the three handled cases, so the assert(false) default is unreachable. The
previous selection is taken as an argument to model the pointer update. -/
def SelectParams (network : Network) (cur : Network) : Network :=
  match network, cur with
  | .MAIN, _ => .MAIN
  | .TESTNET, _ => .TESTNET
  | .REGTEST, _ => .REGTEST

/-- Params (chainparams.cpp lines 212-214): dereferences pCurrentParams. A pure
read of the selector state; it does not modify the selection. -/
def Params (cur : Network) (now : Int) (rand : Nat → Nat) : ParamsObj :=
  paramsFor cur now rand

/-- SelectParamsFromCommandLine (chainparams.cpp lines 239-255) on the two
already-parsed boolean flags: if both are set it returns false without touching
the selection; otherwise it selects Regression, then Test, then Main in that
priority order and returns true. Result is (return value, selection after the
call). -/
def SelectParamsFromCommandLine (fRegTest fTestNet : Bool) (cur : Network) :
    Bool × Network :=
  if fTestNet && fRegTest then (false, cur)
  else if fRegTest then (true, SelectParams .REGTEST cur)
  else if fTestNet then (true, SelectParams .TESTNET cur)
  else (true, SelectParams .MAIN cur)

/-- GetFork2Height (chainparams.h line 77). -/
def GetFork2Height (s : ChainState) : Int := s.nForkHeight2

/-- OnFork2 (chainparams.h line 78): blockHeight >= nForkHeight2. -/
def OnFork2 (s : ChainState) (blockHeight : Int) : Bool :=
  decide (s.nForkHeight2 ≤ blockHeight)

/-- CEM_WindowLength (chainparams.h line 83): OnFork2 ? 90 : 365. -/
def CEM_WindowLength (s : ChainState) (blockHeight : Int) : Int :=
  if OnFork2 s blockHeight then 90 else 365

/-- CEM_MaxNativeBlockRewardReduction (chainparams.h line 90):
OnFork2 ? 80 : 50. -/
def CEM_MaxNativeBlockRewardReduction (s : ChainState) (blockHeight : Int) : Int :=
  if OnFork2 s blockHeight then 80 else 50

/-- The hard-coded expected genesis-hash literal each constructor asserts
against (chainparams.cpp lines 63, 145, 200). -/
def expectedGenesisHash (n : Network) : Nat :=
  match n with
  | .MAIN => 0xc1fb746e87e89ae75bdec2ef0639a1f6786744639ce3d0ece1dcf979b79137cb
  | .TESTNET => 0x572f069d470350b8facc52a0866671d2d3071230e4df45d193394ae153fa891d
  | .REGTEST => 0x168329a349fc93768bfb02e536bbe1e1847d77a65764564552122fa9268d8841

/-- The hard-coded expected Merkle-root literal, where one exists in the
source: only the Main constructor has one (chainparams.cpp line 64); neither
the Test nor the Regression constructor contains a Merkle-root literal or a
Merkle-root assertion. -/
def expectedMerkleRoot (n : Network) : Option Nat :=
  match n with
  | .MAIN => some 0xd4715adf41222fae3d4bf41af30c675bc27228233d0f3cfd4ae0ae1d3e760ba8
  | .TESTNET => none
  | .REGTEST => none

/-- The construction-time assertions, exactly as they appear per variant: every
constructor asserts its stored genesis hash against its literal, and the Main
constructor additionally asserts its Merkle root against Main's literal. True
means no assertion fires (the failure branch is not taken). -/
def assertsPass (n : Network) (now : Int) (rand : Nat → Nat) : Bool :=
  let s := (paramsFor n now rand).state
  (s.hashGenesisBlock == expectedGenesisHash n) &&
    (match expectedMerkleRoot n with
     | some m => s.genesis.hashMerkleRoot == m
     | none => true)

/-- Reference instantiation of a parameter-set state at clock 0 and the
all-zero random source; every field except vFixedSeeds is independent of those
two external inputs, so proofs about such fields may pass through this closed
instance. -/
def refState (n : Network) : ChainState := (paramsFor n 0 (fun _ => 0)).state

/-- The five base58 table entries of a state, in Base58Type order. -/
def base58Table (s : ChainState) : List (List Nat) :=
  [s.base58Prefixes .PUBKEY_ADDRESS,
   s.base58Prefixes .SCRIPT_ADDRESS,
   s.base58Prefixes .SECRET_KEY,
   s.base58Prefixes .EXT_PUBLIC_KEY,
   s.base58Prefixes .EXT_SECRET_KEY]

/-- Helper: CEM_WindowLength expressed by splitting on the activation boundary
rather than through OnFork2. -/
theorem CEM_window_split (s : ChainState) (h : Int) :
    CEM_WindowLength s h = if h < GetFork2Height s then 365 else 90 := by
  rcases le_or_lt s.nForkHeight2 h with hle | hlt
  · simp [CEM_WindowLength, OnFork2, GetFork2Height, hle, not_lt.mpr hle]
  · simp [CEM_WindowLength, OnFork2, GetFork2Height, not_le.mpr hlt, hlt]

/-- Helper: CEM_MaxNativeBlockRewardReduction expressed by splitting on the
activation boundary rather than through OnFork2. -/
theorem CEM_reduction_split (s : ChainState) (h : Int) :
    CEM_MaxNativeBlockRewardReduction s h = if h < GetFork2Height s then 50 else 80 := by
  rcases le_or_lt s.nForkHeight2 h with hle | hlt
  · simp [CEM_MaxNativeBlockRewardReduction, OnFork2, GetFork2Height, hle, not_lt.mpr hle]
  · simp [CEM_MaxNativeBlockRewardReduction, OnFork2, GetFork2Height, not_le.mpr hlt, hlt]

/-- C3: startup resolution from the two boolean flags fails exactly when both
flags are true, and then leaves the selection unchanged; otherwise it selects
Regression when the regression flag is set, else Test when the test flag is
set, else Main, and reports success. -/
theorem C3_startup_resolution (fRegTest fTestNet : Bool) (cur : Network) :
    SelectParamsFromCommandLine fRegTest fTestNet cur =
      (if fRegTest && fTestNet then (false, cur)
       else (true, if fRegTest then Network.REGTEST
                   else if fTestNet then Network.TESTNET else Network.MAIN)) := by
  cases fRegTest <;> cases fTestNet <;> rfl

/-- C4: the selector initially designates Main; for every valid network id N,
select(N) makes the active parameter set the one whose NetworkID is N; reading
the active parameters (Params) is a pure function of the selection, so a read
cannot change it — the selection stays N until another select call. -/
theorem C4_selector (now : Int) (rand : Nat → Nat) (cur N : Network) :
    (Params initialSelection now rand).networkID = Network.MAIN ∧
    SelectParams N cur = N ∧
    (Params (SelectParams N cur) now rand).networkID = N := by
  refine ⟨rfl, ?_, ?_⟩ <;> cases N <;> rfl

/-- C5: for every network variant and every block height h, OnFork2 holds
exactly when h is at or above the variant's fork2 activation height, and
CEM_WindowLength and CEM_MaxNativeBlockRewardReduction switch from 365 to 90
and from 50 to 80 exactly at that boundary. -/
theorem C5_fork2_boundary (now : Int) (rand : Nat → Nat) (n : Network) (h : Int) :
    (OnFork2 (paramsFor n now rand).state h = true ↔
      GetFork2Height (paramsFor n now rand).state ≤ h) ∧
    CEM_WindowLength (paramsFor n now rand).state h =
      (if h < GetFork2Height (paramsFor n now rand).state then 365 else 90) ∧
    CEM_MaxNativeBlockRewardReduction (paramsFor n now rand).state h =
      (if h < GetFork2Height (paramsFor n now rand).state then 50 else 80) :=
  ⟨by simp [OnFork2, GetFork2Height],
   CEM_window_split _ h, CEM_reduction_split _ h⟩

/-- C8: RequireRPCPassword is false for the Regression parameter set and true
for Main and Test; Regression is the only variant with the safeguard off. -/
theorem C8_rpc_password (now : Int) (rand : Nat → Nat) :
    (paramsFor .REGTEST now rand).requireRPCPassword = false ∧
    (paramsFor .MAIN now rand).requireRPCPassword = true ∧
    (paramsFor .TESTNET now rand).requireRPCPassword = true :=
  ⟨rfl, rfl, rfl⟩

/-- C10: the Test network's secret-key entry is written as 258 in the source
but is narrowed to a single unsigned byte, so Base58Prefix(SECRET_KEY) is the
one-byte sequence [2] for the Test network and, by inheritance, for the
Regression network as well. -/
theorem C10_secret_key_byte (now : Int) (rand : Nat → Nat) :
    (CTestNetParams_construct now rand).base58Prefixes Base58Type.SECRET_KEY = [byte 258] ∧
    byte 258 = 2 ∧
    (CRegTestParams_construct now rand).base58Prefixes Base58Type.SECRET_KEY = [2] :=
  ⟨rfl, rfl, rfl⟩

/-- C6: the proof-of-work limits are strictly ordered as targets — Main's
(~0 >> 32) is numerically below Test's (~0 >> 8), which is below
Regression's (~0 >> 1). -/
theorem C6_pow_limit_order (now : Int) (rand : Nat → Nat) :
    (CMainParams_construct now rand).bnProofOfWorkLimit <
      (CTestNetParams_construct now rand).bnProofOfWorkLimit ∧
    (CTestNetParams_construct now rand).bnProofOfWorkLimit <
      (CRegTestParams_construct now rand).bnProofOfWorkLimit := by
  constructor
  · show ((2 ^ 256 - 1) >>> 32 : Nat) < (2 ^ 256 - 1) >>> 8
    decide
  · show ((2 ^ 256 - 1) >>> 8 : Nat) < (2 ^ 256 - 1) >>> 1
    decide

/-- C9: in every variant's base58 table, each of the five address kinds is
assigned a non-empty byte sequence, and the five assigned sequences are
pairwise distinct. -/
theorem C9_base58_table (now : Int) (rand : Nat → Nat) (n : Network) :
    ((base58Table (paramsFor n now rand).state).all fun l => !l.isEmpty) = true ∧
    (base58Table (paramsFor n now rand).state).Nodup := by
  have e : base58Table (paramsFor n now rand).state
      = base58Table (paramsFor n 0 (fun _ => 0)).state := by
    cases n <;> rfl
  rw [e]
  cases n <;> exact ⟨by decide, by decide⟩

/-- C1 counterexample: the claim requires every network to carry a hard-coded
expected Merkle-root literal checked by an assertion, but the source has no
such literal for the Test network (nor for Regression): only the Main
constructor contains a Merkle-root assertion (chainparams.cpp line 64). -/
theorem C1_counterexample : expectedMerkleRoot Network.TESTNET = none := rfl

set_option maxRecDepth 100000 in
/-- C1 (amended): every variant's construction computes a genesis hash equal to
its hard-coded expected hash literal, so each genesis-hash assertion passes,
and the Main constructor's additional Merkle-root assertion passes as well;
Test and Regression have no Merkle-root literal to check. -/
theorem C1_assertions_pass (now : Int) (rand : Nat → Nat) (n : Network) :
    (paramsFor n now rand).state.hashGenesisBlock = expectedGenesisHash n ∧
    assertsPass n now rand = true := by
  cases n
  · constructor
    · show (refState .MAIN).hashGenesisBlock = expectedGenesisHash .MAIN
      decide
    · show (((refState .MAIN).hashGenesisBlock == expectedGenesisHash .MAIN) &&
          ((refState .MAIN).genesis.hashMerkleRoot ==
            0xd4715adf41222fae3d4bf41af30c675bc27228233d0f3cfd4ae0ae1d3e760ba8)) = true
      decide
  · constructor
    · show (refState .TESTNET).hashGenesisBlock = expectedGenesisHash .TESTNET
      decide
    · show (((refState .TESTNET).hashGenesisBlock == expectedGenesisHash .TESTNET) && true) = true
      decide
  · constructor
    · show (refState .REGTEST).hashGenesisBlock = expectedGenesisHash .REGTEST
      decide
    · show (((refState .REGTEST).hashGenesisBlock == expectedGenesisHash .REGTEST) && true) = true
      decide

set_option maxRecDepth 100000 in
/-- C2: the stored genesis hash is the hash of the stored genesis block for
Main and Test, but not for Regression — there the hash is taken while the
nonce is 713058 (chainparams.cpp line 192) and the stored block's nonce is then
overwritten with 3 (line 193), so HashGenesisBlock() is the hash of a block
differing from GenesisBlock() in its nonce. -/
theorem C2_regtest_hash_mismatch (now : Int) (rand : Nat → Nat) :
    GetHash_model (paramsFor .MAIN now rand).state.genesis =
      (paramsFor .MAIN now rand).state.hashGenesisBlock ∧
    GetHash_model (paramsFor .TESTNET now rand).state.genesis =
      (paramsFor .TESTNET now rand).state.hashGenesisBlock ∧
    (paramsFor .REGTEST now rand).state.genesis.nNonce = 3 ∧
    (paramsFor .REGTEST now rand).state.hashGenesisBlock =
      GetHash_model { (paramsFor .REGTEST now rand).state.genesis with nNonce := 713058 } ∧
    GetHash_model (paramsFor .REGTEST now rand).state.genesis ≠
      (paramsFor .REGTEST now rand).state.hashGenesisBlock := by
  refine ⟨?_, ?_, rfl, ?_, ?_⟩
  · show GetHash_model (refState .MAIN).genesis = (refState .MAIN).hashGenesisBlock
    decide
  · show GetHash_model (refState .TESTNET).genesis = (refState .TESTNET).hashGenesisBlock
    decide
  · show (refState .REGTEST).hashGenesisBlock =
      GetHash_model { (refState .REGTEST).genesis with nNonce := 713058 }
    decide
  · show GetHash_model (refState .REGTEST).genesis ≠ (refState .REGTEST).hashGenesisBlock
    decide

/-- C7: every record the fixed-seed materialisation produces carries the
timestamp now - rand(i) - one_week, so for any random draws inside the valid
range [0, one_week) every record's timestamp lies within
[now - 2 * one_week, now - one_week]. -/
theorem C7_seed_staleness (now : Int) (rand : Nat → Nat) (port : Nat)
    (hrand : ∀ i, (rand i : Int) < nOneWeek) :
    ∀ i, ∀ hi : i < (materializeFixedSeeds now rand port).length,
      now - 2 * nOneWeek ≤ ((materializeFixedSeeds now rand port).get ⟨i, hi⟩).nTime ∧
      ((materializeFixedSeeds now rand port).get ⟨i, hi⟩).nTime ≤ now - nOneWeek := by
  intro i hi
  have hge : (0 : Int) ≤ (rand i : Int) := Int.ofNat_nonneg _
  have hlt : (rand i : Int) < nOneWeek := hrand i
  have hnth : ((materializeFixedSeeds now rand port).get ⟨i, hi⟩).nTime
      = now - (rand i : Int) - nOneWeek := by
    simp [materializeFixedSeeds, List.get_eq_getElem]
  rw [hnth]
  constructor <;> omega

/-- C7 witness: the bounds instantiated at now = 1000000000, the constant
random source 12345, port 9265, record 0. -/
theorem C7_seed_staleness_witness :
    (1000000000 : Int) - 2 * nOneWeek ≤
      ((materializeFixedSeeds 1000000000 (fun _ => 12345) 9265).get ⟨0, by decide⟩).nTime ∧
    ((materializeFixedSeeds 1000000000 (fun _ => 12345) 9265).get ⟨0, by decide⟩).nTime ≤
      1000000000 - nOneWeek :=
  C7_seed_staleness 1000000000 (fun _ => 12345) 9265
    (fun _ => by show ((12345 : Nat) : Int) < nOneWeek; decide) 0 (by decide)
